import Mathlib

/-!
Verification of the OpenDeepSearch provider-abstraction layer:
a shallow embedding of `serp_search.py` (SerperAPI, DuckDuckGoAPI,
SearchResult, BaseSearchAPI.extract_fields) and `serpapi_search.py`
(SerpAPI.extract_fields, SerpAPI.standardize_response, SerpAPI.get_sources),
with theorems checking the claims of the specification against it.

Python values decoded from provider JSON are modelled by `JVal`; Python
dicts are association lists with distinct keys, looked up first-match.
Fallible Python operations (attribute errors, type errors raised on
loosely-typed payloads) are modelled with `Except String`.
-/

/-- A Python value as decoded from a provider JSON payload. -/
inductive JVal where
  | null : JVal
  | bool : Bool → JVal
  | int : Int → JVal
  | str : String → JVal
  | arr : List JVal → JVal
  | obj : List (String × JVal) → JVal

/-- First-match association-list lookup: Python `d[k]` / `d.get(k)` on dicts. -/
def lookupL {α : Type} : List (String × α) → String → Option α
  | [], _ => none
  | (k, v) :: rest, key => if k == key then some v else lookupL rest key

/-- Python `k in d` for a dict `d`. -/
def hasKeyL {α : Type} (kvs : List (String × α)) (k : String) : Bool :=
  (lookupL kvs k).isSome

/-- Python dict assignment `d[k] = v`: update in place when the key exists,
append otherwise (insertion order is preserved, as in CPython). -/
def dictInsert (kvs : List (String × JVal)) (k : String) (v : JVal) :
    List (String × JVal) :=
  match kvs with
  | [] => [(k, v)]
  | (k2, v2) :: rest =>
    if k2 == k then (k, v) :: rest else (k2, v2) :: dictInsert rest k v

/-- Python truthiness of a decoded value (`if not items_list`). -/
def JVal.truthy : JVal → Bool
  | .null => false
  | .bool b => b
  | .int n => n != 0
  | .str s => !s.isEmpty
  | .arr xs => !xs.isEmpty
  | .obj kvs => !kvs.isEmpty

/-- Is the value a Python dict (`isinstance(item, dict)`). -/
def JVal.isDict : JVal → Bool
  | .obj _ => true
  | _ => false

/-- Python `d.get(k, default)`; raises `AttributeError` on a non-dict. -/
def pyDictGetD (v : JVal) (k : String) (d : JVal) : Except String JVal :=
  match v with
  | .obj kvs => .ok ((lookupL kvs k).getD d)
  | _ => .error "AttributeError: get"

/-- Python `d.get(k)` (default `None`); raises `AttributeError` on a non-dict. -/
def pyDictGet (v : JVal) (k : String) : Except String JVal :=
  pyDictGetD v k .null

/-- Does the character list `hay` begin with `needle`? -/
def charsBegins : List Char → List Char → Bool
  | _, [] => true
  | [], _ :: _ => false
  | h :: hs, n :: ns => h == n && charsBegins hs ns

/-- Does the character list `hay` contain `needle` as a contiguous run? -/
def charsHas : List Char → List Char → Bool
  | hay, needle =>
    if charsBegins hay needle then true
    else
      match hay with
      | [] => false
      | _ :: hs => charsHas hs needle

/-- Python `needle in hay` for strings (substring test). -/
def strIn (needle hay : String) : Bool :=
  charsHas hay.toList needle.toList

/-- Python `key in v` for a string `key`: key test on dicts, element
membership on lists (a string key equals only an equal string element),
substring test on strings; `TypeError` otherwise. -/
def pyIn (key : String) (v : JVal) : Except String Bool :=
  match v with
  | .obj kvs => .ok (hasKeyL kvs key)
  | .arr xs =>
    .ok (xs.any (fun x => match x with | .str s => s == key | _ => false))
  | .str s => .ok (strIn key s)
  | _ => .error "TypeError: argument not iterable"

/-- Python iteration `for item in v`: elements of a list, keys of a dict,
one-character strings of a string; `TypeError` otherwise. -/
def pyIter : JVal → Except String (List JVal)
  | .arr xs => .ok xs
  | .obj kvs => .ok (kvs.map (fun kv => .str kv.1))
  | .str s => .ok (s.toList.map (fun c => .str (String.mk [c])))
  | _ => .error "TypeError: object is not iterable"

/-- Python `v[:6]`: first six elements of a list (or characters of a string);
`TypeError` otherwise. -/
def pySlice6 : JVal → Except String JVal
  | .arr xs => .ok (.arr (xs.take 6))
  | .str s => .ok (.str (String.mk (s.toList.take 6)))
  | _ => .error "TypeError: object is not subscriptable"

/-- The single-quote character, for Python `repr` output. -/
def pyQ : String := String.mk [Char.ofNat 39]

mutual
/-- Python `repr` of a decoded value (as interpolated by `str` on
containers). -/
def JVal.pyRepr : JVal → String
  | .null => "None"
  | .bool b => if b then "True" else "False"
  | .int n => toString n
  | .str s => pyQ ++ s ++ pyQ
  | .arr xs => "[" ++ pyReprList xs ++ "]"
  | .obj kvs => "\x7b" ++ pyReprObj kvs ++ "\x7d"

/-- Comma-separated `repr`s of list elements. -/
def pyReprList : List JVal → String
  | [] => ""
  | [x] => x.pyRepr
  | x :: y :: xs => x.pyRepr ++ ", " ++ pyReprList (y :: xs)

/-- Comma-separated `repr`s of dict entries. -/
def pyReprObj : List (String × JVal) → String
  | [] => ""
  | [(k, v)] => pyQ ++ k ++ pyQ ++ ": " ++ v.pyRepr
  | (k, v) :: e :: kvs =>
    pyQ ++ k ++ pyQ ++ ": " ++ v.pyRepr ++ ", " ++ pyReprObj (e :: kvs)
end

/-- Python `str` of a decoded value, as used in an f-string. -/
def JVal.pyStr : JVal → String
  | .str s => s
  | v => v.pyRepr

/-- Python whitespace characters recognised by `str.strip()` (ASCII range). -/
def isPySpace (c : Char) : Bool :=
  c == ' ' || c == '\t' || c == '\n' || c == '\r' ||
    c == Char.ofNat 11 || c == Char.ofNat 12

/-- Python `not query.strip()`: every character is whitespace. -/
def stripIsEmpty (s : String) : Bool := s.toList.all isPySpace

/-- Python `s.lower()` (ASCII range), character by character. -/
def pyLower (s : String) : String :=
  String.mk (s.toList.map Char.toLower)

/-- Python `stored_location or default` for `Optional[str]`: `None` and the
empty string fall back to the default. -/
def pyOrStr (o : Option String) (d : String) : String :=
  match o with
  | none => d
  | some s => if s.isEmpty then d else s

/-- Python `s or d` for strings. -/
def pyOrStr2 (s d : String) : String := if s.isEmpty then d else s

/-- Python `n or d` for integers: `0` falls back to the default. -/
def pyOrInt (n d : Int) : Int := if n == 0 then d else n

/-- Python subscription `v[k]` for a string key: dict lookup (`KeyError`
when the key is absent); `TypeError` on other values. -/
def pySubscript (v : JVal) (k : String) : Except String JVal :=
  match v with
  | .obj kvs =>
    match lookupL kvs k with
    | some x => .ok x
    | none => .error "KeyError"
  | _ => .error "TypeError: not subscriptable"

/-- `SearchResult` (serp_search.py): success/failure container. `success`
is assigned by `__init__` from `error`. -/
structure SearchResult where
  data : Option JVal
  error : Option String
  success : Bool

/-- The public constructor `SearchResult(data=..., error=...)`. -/
def SearchResult.make (data : Option JVal) (error : Option String) :
    SearchResult :=
  ⟨data, error, error.isNone⟩

/-- The `failed` property of `SearchResult`. -/
def SearchResult.failed (r : SearchResult) : Bool := !r.success

/-- `SerperConfig` (serp_search.py) with its dataclass defaults. -/
structure SerperConfig where
  api_key : String
  api_url : String := "https://google.serper.dev/search"
  default_location : String := "us"
  timeout : Int := 10

/-- `SerpAPIConfig` (serpapi_search.py) with its dataclass defaults. -/
structure SerpAPIConfig where
  api_key : String
  default_location : String := "United Kingdom"
  timeout : Int := 10
  num_results : Int := 20

/-- Outcome of the single network step of a `get_sources` call: the decoded
payload on success, a `requests.RequestException` (connection failure,
timeout, non-2xx raised by `raise_for_status`, undecodable body), or any
other exception raised while performing the request. -/
inductive Transport where
  | ok (payload : JVal)
  | reqError (msg : String)
  | otherError (msg : String)

/-- The JSON body `{q, num, gl}` POSTed by `SerperAPI.get_sources`. -/
structure SerperRequest where
  q : String
  num : Int
  gl : String

/-- The parameter dict handed to `GoogleSearch` by `SerpAPI.get_sources`. -/
structure SerpAPIRequest where
  q : String
  location : String
  api_key : String
  num : Int

/-- The query-parameter dict sent by `DuckDuckGoAPI.get_sources`. -/
structure DuckDuckGoRequest where
  q : String
  format : String
  no_redirect : Int
  no_html : Int
  skip_disambig : Int

/-- Observable outcome of one `get_sources` call: the request handed to the
transport (`none` when no network call was made) and the returned envelope. -/
structure AdapterCall (ρ : Type) where
  request : Option ρ
  result : SearchResult

/-- The dict comprehension in `BaseSearchAPI.extract_fields`, one field at a
time: keep `item.get(key, "")` under `key` whenever `key in item`. -/
def BaseSearchAPI.extractEntry (item : JVal) :
    List String → List (String × JVal) → Except String (List (String × JVal))
  | [], acc => .ok acc
  | key :: rest, acc => do
    let b ← pyIn key item
    if b then
      match item with
      | .obj m =>
        BaseSearchAPI.extractEntry item rest
          (dictInsert acc key ((lookupL m key).getD (.str "")))
      | _ => .error "AttributeError: get"
    else
      BaseSearchAPI.extractEntry item rest acc

/-- The outer list comprehension in `BaseSearchAPI.extract_fields`. -/
def BaseSearchAPI.extractList (fields : List String) :
    List JVal → Except String (List JVal)
  | [] => .ok []
  | item :: rest => do
    let kvs ← BaseSearchAPI.extractEntry item fields []
    let out ← BaseSearchAPI.extractList fields rest
    pure (JVal.obj kvs :: out)

/-- `BaseSearchAPI.extract_fields(items, fields)` (serp_search.py):
`[{key: item.get(key, "") for key in fields if key in item} for item in items]`. -/
def BaseSearchAPI.extract_fields (items : JVal) (fields : List String) :
    Except String (List JVal) := do
  let xs ← pyIter items
  BaseSearchAPI.extractList fields xs

/-- The per-target-field loop of `SerpAPI.extract_fields` building
`extracted_item` for one retained dict `item`. -/
def SerpAPI.extractFieldsLoop (field_mapping : List (String × String))
    (item : List (String × JVal)) :
    List String → List (String × JVal) → List (String × JVal)
  | [], acc => acc
  | target :: rest, acc =>
    let source := (lookupL field_mapping target).getD target
    let acc2 :=
      if hasKeyL item source then
        dictInsert acc target ((lookupL item source).getD .null)
      else if source == "link" && !(hasKeyL item "link") then
        (if hasKeyL item "url" then
          dictInsert acc target ((lookupL item "url").getD .null)
        else if hasKeyL item "href" then
          dictInsert acc target ((lookupL item "href").getD .null)
        else acc)
      else if source == "snippet" && !(hasKeyL item "snippet") then
        (if hasKeyL item "description" then
          dictInsert acc target ((lookupL item "description").getD .null)
        else if hasKeyL item "content" then
          dictInsert acc target ((lookupL item "content").getD .null)
        else acc)
      else
        dictInsert acc target .null
    SerpAPI.extractFieldsLoop field_mapping item rest acc2

/-- `extracted_item` for one retained dict element: the field loop started
from the empty dict. -/
def SerpAPI.extractItem (field_mapping : List (String × String))
    (fields_to_extract : List String) (item : List (String × JVal)) :
    List (String × JVal) :=
  SerpAPI.extractFieldsLoop field_mapping item fields_to_extract []

/-- The loop over `items_list` in `SerpAPI.extract_fields`: elements that
are not dicts are skipped (`continue`). -/
def SerpAPI.extractLoop (field_mapping : List (String × String))
    (fields_to_extract : List String) : List JVal → List JVal
  | [] => []
  | item :: rest =>
    match item with
    | .obj kvs =>
      .obj (SerpAPI.extractItem field_mapping fields_to_extract kvs) ::
        SerpAPI.extractLoop field_mapping fields_to_extract rest
    | _ => SerpAPI.extractLoop field_mapping fields_to_extract rest

/-- `SerpAPI.extract_fields(items_list, fields_to_extract, field_mapping)`
(serpapi_search.py); `field_mapping = []` models the Python default `None`
(replaced by the empty mapping). -/
def SerpAPI.extract_fields (items_list : JVal)
    (fields_to_extract : List String)
    (field_mapping : List (String × String)) : Except String (List JVal) :=
  if !items_list.truthy then .ok []
  else do
    let xs ← pyIter items_list
    pure (SerpAPI.extractLoop field_mapping fields_to_extract xs)

/-- `organic_mapping` of `SerpAPI.standardize_response`. -/
def SerpAPI.organic_mapping : List (String × String) :=
  [("link", "link"), ("title", "title"), ("snippet", "snippet"),
   ("date", "date")]

/-- `image_mapping` of `SerpAPI.standardize_response`. -/
def SerpAPI.image_mapping : List (String × String) :=
  [("title", "title"), ("imageUrl", "thumbnail")]

/-- `news_mapping` of `SerpAPI.standardize_response`. -/
def SerpAPI.news_mapping : List (String × String) :=
  [("title", "title"), ("imageUrl", "thumbnail")]

/-- The empty canonical structure `standardize_response` returns for a
non-dict payload or a payload carrying an `error` key. -/
def SerpAPI.emptyStructure : JVal :=
  .obj [("organic", .arr []), ("topStories", .arr []), ("images", .arr []),
        ("graph", .null), ("answerBox", .null),
        ("peopleAlsoAsk", .arr []), ("relatedSearches", .arr [])]

/-- `SerpAPI.standardize_response(serp_api_data)` (serpapi_search.py). -/
def SerpAPI.standardize_response (serp_api_data : JVal) :
    Except String JVal :=
  match serp_api_data with
  | .obj kvs =>
    if hasKeyL kvs "error" then .ok SerpAPI.emptyStructure
    else do
      let organic ← SerpAPI.extract_fields
        ((lookupL kvs "organic_results").getD (.arr []))
        ["title", "link", "snippet", "date"] SerpAPI.organic_mapping
      let topStories ← SerpAPI.extract_fields
        ((lookupL kvs "top_stories").getD
          ((lookupL kvs "news_results").getD (.arr [])))
        ["title", "imageUrl"] SerpAPI.news_mapping
      let imagesSliced ← pySlice6
        ((lookupL kvs "images_results").getD
          ((lookupL kvs "inline_images").getD (.arr [])))
      let images ← SerpAPI.extract_fields imagesSliced
        ["title", "imageUrl"] SerpAPI.image_mapping
      pure (.obj [("organic", .arr organic), ("topStories", .arr topStories),
        ("images", .arr images),
        ("graph", (lookupL kvs "knowledge_graph").getD .null),
        ("answerBox", (lookupL kvs "answer_box").getD .null),
        ("peopleAlsoAsk", (lookupL kvs "people_also_ask").getD (.arr [])),
        ("relatedSearches", (lookupL kvs "related_searches").getD (.arr []))])
  | _ => .ok SerpAPI.emptyStructure

/-- The `results` dict built by `SerperAPI.get_sources` from the decoded
payload `data` (serp_search.py lines 96-113). -/
def SerperAPI.buildResults (data : JVal) : Except String JVal := do
  let organicRaw ← pyDictGetD data "organic" (.arr [])
  let organic ← BaseSearchAPI.extract_fields organicRaw
    ["title", "link", "snippet", "date"]
  let topRaw ← pyDictGetD data "topStories" (.arr [])
  let topStories ← BaseSearchAPI.extract_fields topRaw ["title", "imageUrl"]
  let imagesRaw ← pyDictGetD data "images" (.arr [])
  let imagesSliced ← pySlice6 imagesRaw
  let images ← BaseSearchAPI.extract_fields imagesSliced ["title", "imageUrl"]
  let graph ← pyDictGet data "knowledgeGraph"
  let answerBox ← pyDictGet data "answerBox"
  let peopleAlsoAsk ← pyDictGet data "peopleAlsoAsk"
  let relatedSearches ← pyDictGet data "relatedSearches"
  pure (.obj [("organic", .arr organic), ("topStories", .arr topStories),
    ("images", .arr images), ("graph", graph), ("answerBox", answerBox),
    ("peopleAlsoAsk", peopleAlsoAsk), ("relatedSearches", relatedSearches)])

/-- The try/except body of `SerperAPI.get_sources` past the request: the
envelope produced for each transport outcome (`requests.RequestException`
and other exceptions become error envelopes; a decoded payload is projected,
with projection failures caught as unexpected errors). -/
def SerperAPI.responseOf (transport : Transport) : SearchResult :=
  match transport with
  | .reqError e => SearchResult.make none (some ("API request failed: " ++ e))
  | .otherError e => SearchResult.make none (some ("Unexpected error: " ++ e))
  | .ok data =>
    match SerperAPI.buildResults data with
    | .ok results => SearchResult.make (some results) none
    | .error e => SearchResult.make none (some ("Unexpected error: " ++ e))

/-- `SerperAPI.get_sources(query, num_results, stored_location)`
(serp_search.py), with the outcome of the transport step passed explicitly. -/
def SerperAPI.get_sources (config : SerperConfig) (query : String)
    (num_results : Int) (stored_location : Option String)
    (transport : Transport) : AdapterCall SerperRequest :=
  if stripIsEmpty query then
    ⟨none, SearchResult.make none (some "Query cannot be empty")⟩
  else
    let search_location :=
      pyLower (pyOrStr stored_location config.default_location)
    let payload : SerperRequest :=
      ⟨query, min (max 1 num_results) 10, search_location⟩
    ⟨some payload, SerperAPI.responseOf transport⟩

/-- The `results` dict built by `DuckDuckGoAPI.get_sources` from the decoded
payload `data` (serp_search.py lines 164-171). -/
def DuckDuckGoAPI.buildResults (data : JVal) : Except String JVal := do
  let rtRaw ← pyDictGetD data "RelatedTopics" (.arr [])
  let organic ← BaseSearchAPI.extract_fields rtRaw ["Text", "FirstURL", "Icon"]
  let answerBox ← pyDictGet data "AbstractText"
  let relatedSearches ← pyDictGet data "RelatedTopics"
  pure (.obj [("organic", .arr organic), ("answerBox", answerBox),
    ("relatedSearches", relatedSearches)])

/-- The try/except body of `DuckDuckGoAPI.get_sources` past the request:
the envelope produced for each transport outcome. -/
def DuckDuckGoAPI.responseOf (transport : Transport) : SearchResult :=
  match transport with
  | .reqError e => SearchResult.make none (some ("API request failed: " ++ e))
  | .otherError e => SearchResult.make none (some ("Unexpected error: " ++ e))
  | .ok data =>
    match DuckDuckGoAPI.buildResults data with
    | .ok results => SearchResult.make (some results) none
    | .error e => SearchResult.make none (some ("Unexpected error: " ++ e))

/-- `DuckDuckGoAPI.get_sources(query, num_results, stored_location)`
(serp_search.py); `num_results` and `stored_location` are accepted but not
used by the source. -/
def DuckDuckGoAPI.get_sources (query : String) (num_results : Int)
    (stored_location : Option String) (transport : Transport) :
    AdapterCall DuckDuckGoRequest :=
  if stripIsEmpty query then
    ⟨none, SearchResult.make none (some "Query cannot be empty")⟩
  else
    let params : DuckDuckGoRequest := ⟨query, "json", 1, 1, 1⟩
    ⟨some params, DuckDuckGoAPI.responseOf transport⟩

/-- The try/except body of `SerpAPI.get_sources` past the request: the
envelope produced for each transport outcome, including the
provider-reported-error check (is `error` a key of `result`) performed before
`standardize_response`. -/
def SerpAPI.responseOf (transport : Transport) : SearchResult :=
  match transport with
  | .reqError e => SearchResult.make none (some ("API request failed: " ++ e))
  | .otherError e => SearchResult.make none (some ("Unexpected error: " ++ e))
  | .ok result =>
    match pyIn "error" result with
    | .error e => SearchResult.make none (some ("Unexpected error: " ++ e))
    | .ok true =>
      match pySubscript result "error" with
      | .error e => SearchResult.make none (some ("Unexpected error: " ++ e))
      | .ok v => SearchResult.make none (some ("SerpAPI error: " ++ v.pyStr))
    | .ok false =>
      match SerpAPI.standardize_response result with
      | .ok results => SearchResult.make (some results) none
      | .error e => SearchResult.make none (some ("Unexpected error: " ++ e))

/-- `SerpAPI.get_sources(query, num_results, stored_location)`
(serpapi_search.py), with the outcome of the transport step passed explicitly. -/
def SerpAPI.get_sources (config : SerpAPIConfig) (query : String)
    (num_results : Int) (stored_location : Option String)
    (transport : Transport) : AdapterCall SerpAPIRequest :=
  if stripIsEmpty query then
    ⟨none, SearchResult.make none (some "Query cannot be empty")⟩
  else
    let search_location :=
      pyLower (pyOrStr stored_location config.default_location)
    let params : SerpAPIRequest :=
      ⟨query, pyOrStr2 search_location config.default_location,
       config.api_key, pyOrInt num_results config.num_results⟩
    ⟨some params, SerpAPI.responseOf transport⟩

/-- The value stored under key `k` of an object value (used to state
properties of canonical results). -/
def objField (v : JVal) (k : String) : Option JVal :=
  match v with
  | .obj kvs => lookupL kvs k
  | _ => none

/-- A key reported absent by `hasKeyL` looks up to `none`. -/
theorem lookupL_eq_none {α : Type} {kvs : List (String × α)} {k : String}
    (h : hasKeyL kvs k = false) : lookupL kvs k = none := by
  unfold hasKeyL at h
  cases hl : lookupL kvs k with
  | none => rfl
  | some v => rw [hl] at h; simp at h

/-- A key present in the key list looks up to something. -/
theorem hasKeyL_of_mem {α : Type} {kvs : List (String × α)} {k : String}
    (h : k ∈ kvs.map Prod.fst) : hasKeyL kvs k = true := by
  induction kvs with
  | nil => simp at h
  | cons hd tl ih =>
    simp only [List.map_cons, List.mem_cons] at h
    cases h with
    | inl he => simp [hasKeyL, lookupL, he]
    | inr ht =>
      by_cases hk : hd.1 = k
      · simp [hasKeyL, lookupL, hk]
      · simp only [hasKeyL, lookupL] at ih ⊢
        rw [if_neg (by simpa using hk)]
        exact ih ht

/-- `hasKeyL` distributes over append. -/
theorem hasKeyL_append {α : Type} (a b : List (String × α)) (k : String) :
    hasKeyL (a ++ b) k = (hasKeyL a k || hasKeyL b k) := by
  induction a with
  | nil => simp [hasKeyL, lookupL]
  | cons hd tl ih =>
    by_cases hk : hd.1 = k
    · simp [hasKeyL, lookupL, hk]
    · simp only [List.cons_append, hasKeyL, lookupL] at ih ⊢
      rw [if_neg (by simpa using hk), if_neg (by simpa using hk)]
      exact ih

/-- Assigning a fresh key appends the entry at the end (CPython dict
insertion order). -/
theorem dictInsert_of_absent {kvs : List (String × JVal)} {k : String}
    {v : JVal} (h : hasKeyL kvs k = false) :
    dictInsert kvs k v = kvs ++ [(k, v)] := by
  induction kvs with
  | nil => rfl
  | cons hd tl ih =>
    simp only [hasKeyL, lookupL] at h
    by_cases hk : hd.1 = k
    · rw [if_pos (by simpa using hk)] at h
      simp at h
    · simp only [dictInsert]
      rw [if_neg (by simpa using hk)]
      rw [if_neg (by simpa using hk)] at h
      simp only [List.cons_append, List.cons.injEq, true_and]
      exact ih h

/-- C1: for every adapter variant (Serper, SerpAPI, DuckDuckGo) and every
query whose stripped form is empty, `get_sources` returns the failed
envelope with error exactly "Query cannot be empty", and no request reaches
the transport step. -/
theorem C1_empty_query_short_circuits (query : String)
    (h : stripIsEmpty query = true) (cfgA : SerperConfig)
    (cfgB : SerpAPIConfig) (n1 n2 n3 : Int)
    (loc1 loc2 loc3 : Option String) (t1 t2 t3 : Transport) :
    SerperAPI.get_sources cfgA query n1 loc1 t1 =
      ⟨none, SearchResult.make none (some "Query cannot be empty")⟩ ∧
    SerpAPI.get_sources cfgB query n2 loc2 t2 =
      ⟨none, SearchResult.make none (some "Query cannot be empty")⟩ ∧
    DuckDuckGoAPI.get_sources query n3 loc3 t3 =
      ⟨none, SearchResult.make none (some "Query cannot be empty")⟩ ∧
    (SearchResult.make none (some "Query cannot be empty")).failed = true := by
  refine ⟨?_, ?_, ?_, rfl⟩
  · unfold SerperAPI.get_sources
    simp [h]
  · unfold SerpAPI.get_sources
    simp [h]
  · unfold DuckDuckGoAPI.get_sources
    simp [h]

/-- Witness for C1 at the whitespace query `" "`. -/
theorem C1_witness :
    stripIsEmpty " " = true ∧
    (SerperAPI.get_sources ⟨"k", "https://google.serper.dev/search", "us", 10⟩
        " " 8 none (.ok .null) =
      ⟨none, SearchResult.make none (some "Query cannot be empty")⟩ ∧
    SerpAPI.get_sources ⟨"k", "United Kingdom", 10, 20⟩ " " 20 none
        (.ok .null) =
      ⟨none, SearchResult.make none (some "Query cannot be empty")⟩ ∧
    DuckDuckGoAPI.get_sources " " 8 none (.ok .null) =
      ⟨none, SearchResult.make none (some "Query cannot be empty")⟩ ∧
    (SearchResult.make none (some "Query cannot be empty")).failed = true) :=
  ⟨by decide,
   C1_empty_query_short_circuits " " (by decide)
     ⟨"k", "https://google.serper.dev/search", "us", 10⟩
     ⟨"k", "United Kingdom", 10, 20⟩ 8 20 8 none none none
     (.ok .null) (.ok .null) (.ok .null)⟩

/-- C2 counterexample: `SearchResult(None, None)` — both arguments left at
their defaults — is constructible through the public constructor and has
neither `data` nor `error` present, refuting "exactly one of `data`/`error`
is present". -/
theorem C2_counterexample :
    ¬ (((SearchResult.make none none).data.isSome = true ∧
        (SearchResult.make none none).error.isSome = false) ∨
       ((SearchResult.make none none).data.isSome = false ∧
        (SearchResult.make none none).error.isSome = true)) := by
  simp [SearchResult.make]

/-- C2 (amended): for every value constructible through the public
constructor, the derived `success` flag equals "error is absent" (and
`failed` equals "error is present"); the constructor does not enforce that
exactly one of `data`/`error` is present. -/
theorem C2_success_equals_error_absent (d : Option JVal) (e : Option String) :
    (SearchResult.make d e).success = (SearchResult.make d e).error.isNone ∧
    (SearchResult.make d e).failed = (SearchResult.make d e).error.isSome := by
  cases e <;> simp [SearchResult.make, SearchResult.failed]

/-- C4 counterexample: for a record lacking `link`, `url` and `href`, the
projector omits the `link` key from the output map entirely, instead of
setting it to null as the claim states. -/
theorem C4_counterexample :
    SerpAPI.extract_fields (.arr [.obj [("title", .str "A")]]) ["link"] [] =
      .ok [.obj []] ∧
    hasKeyL ([] : List (String × JVal)) "link" = false := by
  exact ⟨rfl, rfl⟩

/-- C4 (amended): with the resolved source field absent from the record,
`link` falls back to `url` then `href` and `snippet` to `description` then
`content`; when no alias resolves, a target whose resolved source field is
`link` or `snippet` is omitted from the output map, while every other
target is set to null. -/
theorem C4_fallback_aliases
    (i1 i2 i3 i4 i5 i6 : List (String × JVal)) (t : String)
    (m : List (String × String))
    (h1 : hasKeyL i1 "link" = false ∧ hasKeyL i1 "url" = true)
    (h2 : hasKeyL i2 "link" = false ∧ hasKeyL i2 "url" = false ∧
      hasKeyL i2 "href" = true)
    (h3 : hasKeyL i3 "snippet" = false ∧ hasKeyL i3 "description" = true)
    (h4 : hasKeyL i4 "snippet" = false ∧ hasKeyL i4 "description" = false ∧
      hasKeyL i4 "content" = true)
    (h5 : hasKeyL i5 "link" = false ∧ hasKeyL i5 "url" = false ∧
      hasKeyL i5 "href" = false ∧ hasKeyL i5 "snippet" = false ∧
      hasKeyL i5 "description" = false ∧ hasKeyL i5 "content" = false)
    (h6 : hasKeyL i6 ((lookupL m t).getD t) = false ∧
      ((lookupL m t).getD t) ≠ "link" ∧ ((lookupL m t).getD t) ≠ "snippet") :
    SerpAPI.extract_fields (.arr [.obj i1]) ["link"] [] =
      .ok [.obj [("link", (lookupL i1 "url").getD .null)]] ∧
    SerpAPI.extract_fields (.arr [.obj i2]) ["link"] [] =
      .ok [.obj [("link", (lookupL i2 "href").getD .null)]] ∧
    SerpAPI.extract_fields (.arr [.obj i3]) ["snippet"] [] =
      .ok [.obj [("snippet", (lookupL i3 "description").getD .null)]] ∧
    SerpAPI.extract_fields (.arr [.obj i4]) ["snippet"] [] =
      .ok [.obj [("snippet", (lookupL i4 "content").getD .null)]] ∧
    SerpAPI.extract_fields (.arr [.obj i5]) ["link", "snippet"] [] =
      .ok [.obj []] ∧
    SerpAPI.extract_fields (.arr [.obj i6]) [t] m =
      .ok [.obj [(t, .null)]] := by
  obtain ⟨h1a, h1b⟩ := h1
  obtain ⟨h2a, h2b, h2c⟩ := h2
  obtain ⟨h3a, h3b⟩ := h3
  obtain ⟨h4a, h4b, h4c⟩ := h4
  obtain ⟨h5a, h5b, h5c, h5d, h5e, h5f⟩ := h5
  obtain ⟨h6a, h6b, h6c⟩ := h6
  refine ⟨?_, ?_, ?_, ?_, ?_, ?_⟩
  · simp [SerpAPI.extract_fields, JVal.truthy, pyIter, SerpAPI.extractLoop,
      SerpAPI.extractItem, SerpAPI.extractFieldsLoop, lookupL, h1a, h1b,
      dictInsert]
  · simp [SerpAPI.extract_fields, JVal.truthy, pyIter, SerpAPI.extractLoop,
      SerpAPI.extractItem, SerpAPI.extractFieldsLoop, lookupL, h2a, h2b, h2c,
      dictInsert]
  · simp [SerpAPI.extract_fields, JVal.truthy, pyIter, SerpAPI.extractLoop,
      SerpAPI.extractItem, SerpAPI.extractFieldsLoop, lookupL, h3a, h3b,
      dictInsert]
  · simp [SerpAPI.extract_fields, JVal.truthy, pyIter, SerpAPI.extractLoop,
      SerpAPI.extractItem, SerpAPI.extractFieldsLoop, lookupL, h4a, h4b, h4c,
      dictInsert]
  · simp [SerpAPI.extract_fields, JVal.truthy, pyIter, SerpAPI.extractLoop,
      SerpAPI.extractItem, SerpAPI.extractFieldsLoop, lookupL, h5a, h5b, h5c,
      h5d, h5e, h5f, dictInsert]
  · have hbl : (((lookupL m t).getD t) == "link") = false :=
      beq_eq_false_iff_ne.mpr h6b
    have hbs : (((lookupL m t).getD t) == "snippet") = false :=
      beq_eq_false_iff_ne.mpr h6c
    simp [SerpAPI.extract_fields, JVal.truthy, pyIter, SerpAPI.extractLoop,
      SerpAPI.extractItem, SerpAPI.extractFieldsLoop, h6a, hbl, hbs,
      dictInsert]

/-- Witness for C4 at concrete records exercising each fallback case. -/
theorem C4_witness :
    (hasKeyL [("url", JVal.str "u")] "link" = false ∧
      hasKeyL [("url", JVal.str "u")] "url" = true) ∧
    SerpAPI.extract_fields (.arr [.obj [("url", JVal.str "u")]]) ["link"] [] =
      .ok [.obj [("link", (lookupL [("url", JVal.str "u")] "url").getD .null)]] := by
  have h1 : hasKeyL [("url", JVal.str "u")] "link" = false ∧
      hasKeyL [("url", JVal.str "u")] "url" = true := by decide
  refine ⟨h1, ?_⟩
  exact (C4_fallback_aliases [("url", JVal.str "u")] [("href", JVal.str "h")]
    [("description", JVal.str "d")] [("content", JVal.str "c")]
    [("title", JVal.str "A")] [("title", JVal.str "A")] "imageUrl" []
    h1 (by decide) (by decide) (by decide) (by decide) (by decide)).1

/-- The projector loop ignores elements that are not dicts: running it on
the dict-only sublist gives the same output. -/
theorem extractLoop_filter (m : List (String × String)) (f : List String) :
    ∀ items : List JVal,
      SerpAPI.extractLoop m f items =
        SerpAPI.extractLoop m f (items.filter JVal.isDict) := by
  intro items
  induction items with
  | nil => rfl
  | cons x rest ih =>
    cases x <;> simp [SerpAPI.extractLoop, List.filter, JVal.isDict, ih]

/-- On a list of dicts the projector loop emits one output per element. -/
theorem extractLoop_length (m : List (String × String)) (f : List String) :
    ∀ items : List JVal, (∀ i ∈ items, JVal.isDict i = true) →
      (SerpAPI.extractLoop m f items).length = items.length := by
  intro items
  induction items with
  | nil => intro; rfl
  | cons x rest ih =>
    intro h
    cases x with
    | obj kvs =>
      simp only [SerpAPI.extractLoop, List.length_cons]
      rw [ih (fun i hi => h i (List.mem_cons_of_mem _ hi))]
    | null => exact absurd (h _ (List.mem_cons_self _ _)) (by simp [JVal.isDict])
    | bool b => exact absurd (h _ (List.mem_cons_self _ _)) (by simp [JVal.isDict])
    | int n => exact absurd (h _ (List.mem_cons_self _ _)) (by simp [JVal.isDict])
    | str s => exact absurd (h _ (List.mem_cons_self _ _)) (by simp [JVal.isDict])
    | arr xs => exact absurd (h _ (List.mem_cons_self _ _)) (by simp [JVal.isDict])

/-- C5: on any list of records `SerpAPI.extract_fields` raises no exception,
skips exactly the elements that are not dicts, and emits one projected map
per retained element in the original relative order (its output is the
projection of the dict-only sublist); in particular two dicts interleaved
with a non-dict element project to exactly those two outputs in order. -/
theorem C5_nonmap_elements_skipped (fields : List String)
    (m : List (String × String)) (items : List JVal) :
    SerpAPI.extract_fields (.arr items) fields m =
      .ok (SerpAPI.extractLoop m fields (items.filter JVal.isDict)) ∧
    (SerpAPI.extractLoop m fields (items.filter JVal.isDict)).length =
      (items.filter JVal.isDict).length ∧
    SerpAPI.extract_fields
      (.arr [.obj [("title", .str "A")], .str "junk", .obj [("title", .str "B")]])
      ["title"] [] =
      .ok [.obj [("title", .str "A")], .obj [("title", .str "B")]] := by
  refine ⟨?_, ?_, rfl⟩
  · cases items with
    | nil => rfl
    | cons x rest =>
      simp only [SerpAPI.extract_fields, JVal.truthy, List.isEmpty, pyIter]
      rw [← extractLoop_filter]
      rfl
  · exact extractLoop_length m fields _ (fun i hi => List.of_mem_filter hi)

/-- With the identity mapping, targets that are all present, pairwise
distinct and fresh for the accumulator are copied over in order. -/
theorem extractFieldsLoop_copies (item : List (String × JVal)) :
    ∀ (ts : List String) (acc : List (String × JVal)), ts.Nodup →
      (∀ t ∈ ts, hasKeyL item t = true) →
      (∀ t ∈ ts, hasKeyL acc t = false) →
      SerpAPI.extractFieldsLoop [] item ts acc =
        acc ++ ts.map (fun t => (t, (lookupL item t).getD .null)) := by
  intro ts
  induction ts with
  | nil => intro acc _ _ _; simp [SerpAPI.extractFieldsLoop]
  | cons t rest ih =>
    intro acc hnd hin hacc
    have hsrc : (lookupL ([] : List (String × String)) t).getD t = t := rfl
    have hkey : hasKeyL item t = true := hin t (List.mem_cons_self _ _)
    have hfresh : hasKeyL acc t = false := hacc t (List.mem_cons_self _ _)
    simp only [SerpAPI.extractFieldsLoop, hsrc, hkey, if_pos]
    rw [dictInsert_of_absent hfresh]
    rw [ih (acc ++ [(t, (lookupL item t).getD .null)]) (List.Nodup.of_cons hnd)
      (fun u hu => hin u (List.mem_cons_of_mem _ hu))
      (fun u hu => by
        rw [hasKeyL_append]
        have hne : t ≠ u := fun he => (List.nodup_cons.mp hnd).1 (he ▸ hu)
        have h2 : hasKeyL [(t, (lookupL item t).getD .null)] u = false := by
          simp [hasKeyL, lookupL, hne]
        rw [hacc u (List.mem_cons_of_mem _ hu), h2]
        rfl)]
    simp

/-- Rebuilding an association list from its own key list and lookups gives
the list back (keys distinct). -/
theorem assoc_reconstruct :
    ∀ r : List (String × JVal), (r.map Prod.fst).Nodup →
      (r.map Prod.fst).map (fun t => (t, (lookupL r t).getD .null)) = r := by
  intro r
  induction r with
  | nil => intro _; rfl
  | cons hd tl ih =>
    obtain ⟨k, v⟩ := hd
    intro hnd
    rw [List.map_cons] at hnd
    have hnotin : k ∉ tl.map Prod.fst := (List.nodup_cons.mp hnd).1
    simp only [List.map_cons]
    have hhd : lookupL ((k, v) :: tl) k = some v := by simp [lookupL]
    rw [hhd]
    simp only [Option.getD_some]
    have hcongr : (tl.map Prod.fst).map
          (fun t => (t, (lookupL ((k, v) :: tl) t).getD .null)) =
        (tl.map Prod.fst).map (fun t => (t, (lookupL tl t).getD .null)) := by
      apply List.map_congr_left
      intro t ht
      have hne : k ≠ t := fun he => hnotin (he ▸ ht)
      simp [lookupL, hne]
    rw [hcongr, ih (List.nodup_cons.mp hnd).2]

/-- On a list payload, `SerpAPI.extract_fields` is exactly the skipping
projection loop (the empty-list guard and the loop agree on `[]`). -/
theorem extract_fields_arr (m : List (String × String)) (f : List String)
    (items : List JVal) :
    SerpAPI.extract_fields (.arr items) f m =
      .ok (SerpAPI.extractLoop m f items) := by
  cases items with
  | nil => rfl
  | cons x rest => rfl

/-- C10 (amended): projecting a sequence of records whose key lists are
exactly the target fields (distinct, in target order) with the identity
field mapping returns the sequence unchanged, in the same order. -/
theorem C10_project_idempotent (targets : List String)
    (records : List (List (String × JVal))) (hnd : targets.Nodup)
    (hkeys : ∀ r ∈ records, r.map Prod.fst = targets) :
    SerpAPI.extract_fields (.arr (records.map JVal.obj)) targets [] =
      .ok (records.map JVal.obj) := by
  have hitem : ∀ r ∈ records, SerpAPI.extractItem [] targets r = r := by
    intro r hr
    have hk : r.map Prod.fst = targets := hkeys r hr
    unfold SerpAPI.extractItem
    rw [extractFieldsLoop_copies r targets [] hnd
      (fun t ht => hasKeyL_of_mem (hk ▸ ht)) (fun t _ => rfl)]
    rw [List.nil_append, ← hk, assoc_reconstruct r (hk ▸ hnd)]
  have hloop : ∀ rs : List (List (String × JVal)),
      (∀ r ∈ rs, SerpAPI.extractItem [] targets r = r) →
      SerpAPI.extractLoop [] targets (rs.map JVal.obj) = rs.map JVal.obj := by
    intro rs
    induction rs with
    | nil => intro _; rfl
    | cons r rest ih =>
      intro h
      simp only [List.map_cons, SerpAPI.extractLoop]
      rw [h r (List.mem_cons_self _ _),
        ih (fun u hu => h u (List.mem_cons_of_mem _ hu))]
  rw [extract_fields_arr, hloop records hitem]

/-- Witness for C10 at a concrete already-projected sequence. -/
theorem C10_witness :
    (["title", "link"].Nodup ∧
      (∀ r ∈ [[("title", JVal.str "A"), ("link", JVal.str "x")],
              [("title", JVal.str "B"), ("link", JVal.str "y")]],
        r.map Prod.fst = ["title", "link"])) ∧
    SerpAPI.extract_fields
      (.arr ([[("title", JVal.str "A"), ("link", JVal.str "x")],
              [("title", JVal.str "B"), ("link", JVal.str "y")]].map JVal.obj))
      ["title", "link"] [] =
      .ok ([[("title", JVal.str "A"), ("link", JVal.str "x")],
            [("title", JVal.str "B"), ("link", JVal.str "y")]].map JVal.obj) :=
  ⟨⟨by decide, by decide⟩,
   C10_project_idempotent ["title", "link"]
     [[("title", JVal.str "A"), ("link", JVal.str "x")],
      [("title", JVal.str "B"), ("link", JVal.str "y")]]
     (by decide) (by decide)⟩

/-- C10 counterexample: a record that contains every target field as a key
but also an extra key is schema-conformant in the sense of the claim, yet
projecting it drops the extra key, so the output differs from the input. -/
theorem C10_counterexample :
    SerpAPI.extract_fields
      (.arr [.obj [("title", .str "A"), ("extra", .str "x")]]) ["title"] [] =
      .ok [.obj [("title", .str "A")]] ∧
    hasKeyL [("title", JVal.str "A"), ("extra", JVal.str "x")] "title" = true ∧
    hasKeyL [("title", JVal.str "A"), ("extra", JVal.str "x")] "extra" = true ∧
    hasKeyL [("title", JVal.str "A")] "extra" = false := by
  exact ⟨rfl, rfl, rfl, rfl⟩

/-- One step of the dict comprehension of the base projector on a dict element. -/
theorem extractEntry_obj_step (m : List (String × JVal)) (k : String)
    (fields : List String) (acc : List (String × JVal)) :
    BaseSearchAPI.extractEntry (.obj m) (k :: fields) acc =
      if hasKeyL m k then
        BaseSearchAPI.extractEntry (.obj m) fields
          (dictInsert acc k ((lookupL m k).getD (.str "")))
      else BaseSearchAPI.extractEntry (.obj m) fields acc := rfl

/-- The dict comprehension of the base projector never raises on a dict. -/
theorem extractEntry_obj_ok (m : List (String × JVal)) :
    ∀ (fields : List String) (acc : List (String × JVal)),
      ∃ kvs, BaseSearchAPI.extractEntry (.obj m) fields acc = .ok kvs := by
  intro fields
  induction fields with
  | nil => intro acc; exact ⟨acc, rfl⟩
  | cons k rest ih =>
    intro acc
    rw [extractEntry_obj_step]
    by_cases hk : hasKeyL m k = true
    · rw [if_pos hk]; exact ih _
    · rw [if_neg (by simpa using hk)]; exact ih _

/-- One step of the outer comprehension of the base projector. -/
theorem extractList_step (fields : List String) (x : JVal)
    (rest : List JVal) :
    BaseSearchAPI.extractList fields (x :: rest) =
      (do
        let kvs ← BaseSearchAPI.extractEntry x fields []
        let out ← BaseSearchAPI.extractList fields rest
        pure (JVal.obj kvs :: out)) := rfl

/-- On a list of dicts, the base projector succeeds and emits exactly one
output per element. -/
theorem extractList_allobj (fields : List String) :
    ∀ items : List JVal, (∀ i ∈ items, JVal.isDict i = true) →
      ∃ ys, BaseSearchAPI.extractList fields items = .ok ys ∧
        ys.length = items.length := by
  intro items
  induction items with
  | nil => intro _; exact ⟨[], rfl, rfl⟩
  | cons x rest ih =>
    intro h
    obtain ⟨ys, hys, hlen⟩ := ih (fun i hi => h i (List.mem_cons_of_mem _ hi))
    have hx := h x (List.mem_cons_self _ _)
    cases x with
    | obj m =>
      obtain ⟨kvs, hkvs⟩ := extractEntry_obj_ok m fields []
      refine ⟨JVal.obj kvs :: ys, ?_, by simp [hlen]⟩
      rw [extractList_step, hkvs, hys]
      rfl
    | null => simp [JVal.isDict] at hx
    | bool b => simp [JVal.isDict] at hx
    | int n => simp [JVal.isDict] at hx
    | str s => simp [JVal.isDict] at hx
    | arr l => simp [JVal.isDict] at hx

/-- Bind on a successful `Except` computation applies the continuation. -/
theorem exceptBind_ok {α β : Type} (a : α) (f : α → Except String β) :
    ((Except.ok a : Except String α) >>= f) = f a := rfl

/-- Bind on a failed `Except` computation propagates the failure. -/
theorem exceptBind_err {α β : Type} (e : String)
    (f : α → Except String β) :
    ((Except.error e : Except String α) >>= f) = .error e := rfl

/-- Whenever the base projector succeeds on a list, it emits exactly one
output per input element — with no assumption on the elements. -/
theorem extractList_length_of_ok (fields : List String) :
    ∀ items ys : List JVal,
      BaseSearchAPI.extractList fields items = .ok ys →
      ys.length = items.length := by
  intro items
  induction items with
  | nil =>
    intro ys h
    have h2 : (Except.ok [] : Except String (List JVal)) = .ok ys := h
    injection h2 with h3
    rw [← h3]
  | cons x rest ih =>
    intro ys h
    rw [extractList_step] at h
    cases he : BaseSearchAPI.extractEntry x fields [] with
    | error e => simp only [he, exceptBind_err] at h; cases h
    | ok kvs =>
      simp only [he, exceptBind_ok] at h
      cases hr : BaseSearchAPI.extractList fields rest with
      | error e => simp only [hr, exceptBind_err] at h; cases h
      | ok out =>
        simp only [hr, exceptBind_ok] at h
        have h2 : (Except.ok (JVal.obj kvs :: out) :
            Except String (List JVal)) = .ok ys := h
        injection h2 with h3
        rw [← h3]
        simp only [List.length_cons]
        rw [ih out hr]

/-- C6 counterexample: a SerpAPI payload whose image section holds 7
entries that are not maps produces a SUCCESSFUL result whose canonical
`images` sequence has 0 entries, not 6. -/
theorem C6_counterexample :
    (SerpAPI.get_sources ⟨"k", "United Kingdom", 10, 20⟩ "cats" 8 none
      (.ok (.obj [("images_results",
        .arr [.int 1, .int 2, .int 3, .int 4, .int 5, .int 6,
          .int 7])]))).result.success = true ∧
    ((SerpAPI.get_sources ⟨"k", "United Kingdom", 10, 20⟩ "cats" 8 none
      (.ok (.obj [("images_results",
        .arr [.int 1, .int 2, .int 3, .int 4, .int 5, .int 6,
          .int 7])]))).result.data.bind
        (fun r => objField r "images")) = some (.arr []) ∧
    ([JVal.int 1, .int 2, .int 3, .int 4, .int 5, .int 6,
      .int 7].length = 7) := by
  exact ⟨rfl, rfl, rfl⟩

/-- C6 (amended): the selected raw image section is truncated to its first
6 entries before projection, and the canonical `images` sequence of a
successful result is the projection of those first 6 entries in original
order. The Serper projector emits exactly one map per raw entry whenever it
succeeds, so EVERY successful Serper result whose raw image section is a
list with more than 6 entries carries exactly 6 images; the SerpAPI
projector silently drops non-map entries, so its (still successful) result
carries exactly 6 images when each of the first 6 raw entries is a map, and
fewer otherwise. -/
theorem C6_images_truncated_to_six (xs : List JVal) (hlen : 6 < xs.length) :
    (SerpAPI.standardize_response (.obj [("images_results", .arr xs)]) =
      .ok (.obj [("organic", .arr []), ("topStories", .arr []),
        ("images", .arr (SerpAPI.extractLoop SerpAPI.image_mapping
          ["title", "imageUrl"] (xs.take 6))),
        ("graph", .null), ("answerBox", .null),
        ("peopleAlsoAsk", .arr []), ("relatedSearches", .arr [])]) ∧
     ((∀ x ∈ xs.take 6, JVal.isDict x = true) →
       (SerpAPI.extractLoop SerpAPI.image_mapping ["title", "imageUrl"]
         (xs.take 6)).length = 6)) ∧
    (∀ (kvs : List (String × JVal)) (out : JVal),
      lookupL kvs "images" = some (.arr xs) →
      SerperAPI.buildResults (.obj kvs) = .ok out →
      ∃ ys, BaseSearchAPI.extractList ["title", "imageUrl"] (xs.take 6) =
          .ok ys ∧
        objField out "images" = some (.arr ys) ∧ ys.length = 6) := by
  have htake : (xs.take 6).length = 6 := by
    rw [List.length_take]
    omega
  constructor
  · constructor
    · have hstep : SerpAPI.standardize_response
          (.obj [("images_results", .arr xs)]) =
          (SerpAPI.extract_fields (.arr (xs.take 6)) ["title", "imageUrl"]
            SerpAPI.image_mapping).bind (fun images =>
            Except.ok (.obj [("organic", .arr []), ("topStories", .arr []),
              ("images", .arr images), ("graph", .null), ("answerBox", .null),
              ("peopleAlsoAsk", .arr []), ("relatedSearches", .arr [])])) :=
        rfl
      rw [hstep, extract_fields_arr]
      rfl
    · intro hdict
      rw [extractLoop_length SerpAPI.image_mapping _ _ hdict, htake]
  · intro kvs out himg hok
    have hb : SerperAPI.buildResults (.obj kvs) =
        (BaseSearchAPI.extract_fields
            ((lookupL kvs "organic").getD (.arr []))
            ["title", "link", "snippet", "date"] >>= fun organic =>
          BaseSearchAPI.extract_fields
            ((lookupL kvs "topStories").getD (.arr []))
            ["title", "imageUrl"] >>= fun topStories =>
          pySlice6 ((lookupL kvs "images").getD (.arr [])) >>=
            fun imagesSliced =>
          BaseSearchAPI.extract_fields imagesSliced ["title", "imageUrl"] >>=
            fun images =>
          Except.ok (JVal.obj [("organic", .arr organic),
            ("topStories", .arr topStories), ("images", .arr images),
            ("graph", (lookupL kvs "knowledgeGraph").getD .null),
            ("answerBox", (lookupL kvs "answerBox").getD .null),
            ("peopleAlsoAsk", (lookupL kvs "peopleAlsoAsk").getD .null),
            ("relatedSearches",
              (lookupL kvs "relatedSearches").getD .null)])) := rfl
    rw [hb, himg] at hok
    simp only [Option.getD_some] at hok
    cases h1 : BaseSearchAPI.extract_fields
        ((lookupL kvs "organic").getD (.arr []))
        ["title", "link", "snippet", "date"] with
    | error e =>
      simp only [h1, exceptBind_err] at hok
      cases hok
    | ok organic =>
      simp only [h1, exceptBind_ok] at hok
      cases h2 : BaseSearchAPI.extract_fields
          ((lookupL kvs "topStories").getD (.arr []))
          ["title", "imageUrl"] with
      | error e =>
        simp only [h2, exceptBind_err] at hok
        cases hok
      | ok topStories =>
        simp only [h2, exceptBind_ok] at hok
        rw [show pySlice6 (JVal.arr xs) = .ok (.arr (xs.take 6)) from rfl,
          exceptBind_ok] at hok
        rw [show BaseSearchAPI.extract_fields (.arr (xs.take 6))
              ["title", "imageUrl"] =
            BaseSearchAPI.extractList ["title", "imageUrl"] (xs.take 6)
          from rfl] at hok
        cases h3 : BaseSearchAPI.extractList ["title", "imageUrl"]
            (xs.take 6) with
        | error e =>
          simp only [h3, exceptBind_err] at hok
          cases hok
        | ok ys =>
          simp only [h3, exceptBind_ok] at hok
          have h4 : (Except.ok (JVal.obj [("organic", .arr organic),
              ("topStories", .arr topStories), ("images", .arr ys),
              ("graph", (lookupL kvs "knowledgeGraph").getD .null),
              ("answerBox", (lookupL kvs "answerBox").getD .null),
              ("peopleAlsoAsk", (lookupL kvs "peopleAlsoAsk").getD .null),
              ("relatedSearches",
                (lookupL kvs "relatedSearches").getD .null)]) :
              Except String JVal) = .ok out := hok
          injection h4 with h5
          refine ⟨ys, rfl, ?_, ?_⟩
          · rw [← h5]
            rfl
          · rw [extractList_length_of_ok _ _ _ h3, htake]

/-- Witness for C6 at a list of 7 one-key image dicts. -/
theorem C6_witness :
    (6 < [JVal.obj [("thumbnail", JVal.str "a")],
      .obj [("thumbnail", JVal.str "b")], .obj [("thumbnail", JVal.str "c")],
      .obj [("thumbnail", JVal.str "d")], .obj [("thumbnail", JVal.str "e")],
      .obj [("thumbnail", JVal.str "f")],
      .obj [("thumbnail", JVal.str "g")]].length) ∧
    (SerpAPI.extractLoop SerpAPI.image_mapping ["title", "imageUrl"]
      ([JVal.obj [("thumbnail", JVal.str "a")],
        .obj [("thumbnail", JVal.str "b")], .obj [("thumbnail", JVal.str "c")],
        .obj [("thumbnail", JVal.str "d")], .obj [("thumbnail", JVal.str "e")],
        .obj [("thumbnail", JVal.str "f")],
        .obj [("thumbnail", JVal.str "g")]].take 6)).length = 6 :=
  ⟨by decide,
   ((C6_images_truncated_to_six
      [JVal.obj [("thumbnail", JVal.str "a")],
        .obj [("thumbnail", JVal.str "b")], .obj [("thumbnail", JVal.str "c")],
        .obj [("thumbnail", JVal.str "d")], .obj [("thumbnail", JVal.str "e")],
        .obj [("thumbnail", JVal.str "f")], .obj [("thumbnail", JVal.str "g")]]
      (by decide)).1.2 (by decide))⟩

/-- C3 counterexample: on the empty decoded payload, the Serper adapter
succeeds but sets the canonical `peopleAlsoAsk` field to null (not an empty
sequence), and the DuckDuckGo adapter succeeds with no `topStories` key at
all. -/
theorem C3_counterexample :
    (SerperAPI.get_sources ⟨"k", "https://google.serper.dev/search", "us", 10⟩
      "cats" 8 none (.ok (.obj []))).result.success = true ∧
    ((SerperAPI.get_sources ⟨"k", "https://google.serper.dev/search", "us", 10⟩
      "cats" 8 none (.ok (.obj []))).result.data.bind
        (fun r => objField r "peopleAlsoAsk")) = some JVal.null ∧
    (DuckDuckGoAPI.get_sources "cats" 8 none
      (.ok (.obj []))).result.success = true ∧
    ((DuckDuckGoAPI.get_sources "cats" 8 none
      (.ok (.obj []))).result.data.bind
        (fun r => objField r "topStories")) = none := by
  exact ⟨rfl, rfl, rfl, rfl⟩

/-- C3 (amended): how each adapter defaults missing raw sections. The
SerpAPI adapter emits all five sequence fields defaulting to the empty
sequence and `graph`/`answerBox` defaulting to null. The Serper adapter
defaults `organic`/`topStories`/`images` to empty sequences and
`graph`/`answerBox` to null, but copies `peopleAlsoAsk`/`relatedSearches`
raw, defaulting them to null. The DuckDuckGo adapter emits only the keys
`organic` (defaulting to the empty sequence), `answerBox` and
`relatedSearches` (defaulting to null); the other canonical keys are absent
from its output. -/
theorem C3_missing_section_defaults (kvs1 kvs2 kvs3 : List (String × JVal))
    (h1 : ∀ k ∈ ["error", "organic_results", "top_stories", "news_results",
      "images_results", "inline_images", "knowledge_graph", "answer_box",
      "people_also_ask", "related_searches"], hasKeyL kvs1 k = false)
    (h2 : ∀ k ∈ ["organic", "topStories", "images", "knowledgeGraph",
      "answerBox", "peopleAlsoAsk", "relatedSearches"],
      hasKeyL kvs2 k = false)
    (h3 : ∀ k ∈ ["RelatedTopics", "AbstractText"], hasKeyL kvs3 k = false) :
    SerpAPI.standardize_response (.obj kvs1) = .ok SerpAPI.emptyStructure ∧
    SerperAPI.buildResults (.obj kvs2) =
      .ok (.obj [("organic", .arr []), ("topStories", .arr []),
        ("images", .arr []), ("graph", .null), ("answerBox", .null),
        ("peopleAlsoAsk", .null), ("relatedSearches", .null)]) ∧
    DuckDuckGoAPI.buildResults (.obj kvs3) =
      .ok (.obj [("organic", .arr []), ("answerBox", .null),
        ("relatedSearches", .null)]) ∧
    objField (.obj [("organic", JVal.arr []), ("answerBox", JVal.null),
      ("relatedSearches", JVal.null)]) "topStories" = none ∧
    objField (.obj [("organic", JVal.arr []), ("answerBox", JVal.null),
      ("relatedSearches", JVal.null)]) "images" = none ∧
    objField (.obj [("organic", JVal.arr []), ("answerBox", JVal.null),
      ("relatedSearches", JVal.null)]) "peopleAlsoAsk" = none := by
  refine ⟨?_, ?_, ?_, rfl, rfl, rfl⟩
  · have e0 := h1 "error" (by simp)
    have e1 := lookupL_eq_none (h1 "organic_results" (by simp))
    have e2 := lookupL_eq_none (h1 "top_stories" (by simp))
    have e3 := lookupL_eq_none (h1 "news_results" (by simp))
    have e4 := lookupL_eq_none (h1 "images_results" (by simp))
    have e5 := lookupL_eq_none (h1 "inline_images" (by simp))
    have e6 := lookupL_eq_none (h1 "knowledge_graph" (by simp))
    have e7 := lookupL_eq_none (h1 "answer_box" (by simp))
    have e8 := lookupL_eq_none (h1 "people_also_ask" (by simp))
    have e9 := lookupL_eq_none (h1 "related_searches" (by simp))
    simp only [SerpAPI.standardize_response, e0, e1, e2, e3, e4, e5, e6, e7,
      e8, e9]
    rfl
  · have e1 := lookupL_eq_none (h2 "organic" (by simp))
    have e2 := lookupL_eq_none (h2 "topStories" (by simp))
    have e3 := lookupL_eq_none (h2 "images" (by simp))
    have e4 := lookupL_eq_none (h2 "knowledgeGraph" (by simp))
    have e5 := lookupL_eq_none (h2 "answerBox" (by simp))
    have e6 := lookupL_eq_none (h2 "peopleAlsoAsk" (by simp))
    have e7 := lookupL_eq_none (h2 "relatedSearches" (by simp))
    simp only [SerperAPI.buildResults, pyDictGetD, pyDictGet, e1, e2, e3, e4,
      e5, e6, e7]
    rfl
  · have e1 := lookupL_eq_none (h3 "RelatedTopics" (by simp))
    have e2 := lookupL_eq_none (h3 "AbstractText" (by simp))
    simp only [DuckDuckGoAPI.buildResults, pyDictGetD, pyDictGet, e1, e2]
    rfl

/-- Witness for C3 at the empty payload dict. -/
theorem C3_witness :
    SerpAPI.standardize_response (.obj []) = .ok SerpAPI.emptyStructure ∧
    SerperAPI.buildResults (.obj []) =
      .ok (.obj [("organic", .arr []), ("topStories", .arr []),
        ("images", .arr []), ("graph", .null), ("answerBox", .null),
        ("peopleAlsoAsk", .null), ("relatedSearches", .null)]) ∧
    DuckDuckGoAPI.buildResults (.obj []) =
      .ok (.obj [("organic", .arr []), ("answerBox", .null),
        ("relatedSearches", .null)]) :=
  have h := C3_missing_section_defaults [] [] []
    (by decide) (by decide) (by decide)
  ⟨h.1, h.2.1, h.2.2.1⟩

/-- C7 counterexample: a decoded payload carrying the provider error field
`{"error": "Invalid API key."}` makes the Serper and DuckDuckGo adapters
return a SUCCESSFUL envelope — they never check the provider-reported error
field. -/
theorem C7_counterexample :
    (SerperAPI.get_sources ⟨"k", "https://google.serper.dev/search", "us", 10⟩
      "cats" 8 none
      (.ok (.obj [("error", .str "Invalid API key.")]))).result.success =
      true ∧
    (DuckDuckGoAPI.get_sources "cats" 8 none
      (.ok (.obj [("error", .str "Invalid API key.")]))).result.success =
      true := by
  exact ⟨rfl, rfl⟩

/-- C7 (amended): only the SerpAPI adapter checks the decoded payload for a
provider-reported `error` field; it then returns a failed envelope whose
message is exactly `"SerpAPI error: "` followed by the provider message,
with `data` absent and no field projection attempted. The Serper and
DuckDuckGo adapters ignore such a field and return a successful envelope. -/
theorem C7_provider_error_serpapi_only (config : SerpAPIConfig)
    (query : String) (hq : stripIsEmpty query = false) (n : Int)
    (loc : Option String) (kvs : List (String × JVal)) (v : JVal)
    (hv : lookupL kvs "error" = some v) :
    (SerpAPI.get_sources config query n loc (.ok (.obj kvs))).result =
      SearchResult.make none (some ("SerpAPI error: " ++ v.pyStr)) ∧
    (SerpAPI.get_sources config query n loc
      (.ok (.obj kvs))).result.failed = true ∧
    (SerpAPI.get_sources ⟨"k", "United Kingdom", 10, 20⟩ "cats" 8 none
      (.ok (.obj [("error", .str "Invalid API key.")]))).result.error =
      some "SerpAPI error: Invalid API key." ∧
    strIn "Invalid API key." "SerpAPI error: Invalid API key." = true ∧
    (SerperAPI.get_sources ⟨"k", "https://google.serper.dev/search", "us", 10⟩
      "cats" 8 none (.ok (.obj [("error", v)]))).result.success = true ∧
    (DuckDuckGoAPI.get_sources "cats" 8 none
      (.ok (.obj [("error", v)]))).result.success = true := by
  have hkey : hasKeyL kvs "error" = true := by
    unfold hasKeyL
    rw [hv]
    rfl
  have hresp : SerpAPI.responseOf (.ok (.obj kvs)) =
      SearchResult.make none (some ("SerpAPI error: " ++ v.pyStr)) := by
    simp only [SerpAPI.responseOf, pyIn, pySubscript, hkey, hv]
  have hmain : (SerpAPI.get_sources config query n loc
      (.ok (.obj kvs))).result =
      SearchResult.make none (some ("SerpAPI error: " ++ v.pyStr)) := by
    simp only [SerpAPI.get_sources, hq]
    rw [if_neg (by simp)]
    exact hresp
  refine ⟨hmain, ?_, rfl, by decide, rfl, rfl⟩
  rw [hmain]
  rfl

/-- Witness for C7 at the payload `{"error": "Invalid API key."}`. -/
theorem C7_witness :
    (stripIsEmpty "cats" = false ∧
      lookupL [("error", JVal.str "Invalid API key.")] "error" =
        some (JVal.str "Invalid API key.")) ∧
    (SerpAPI.get_sources ⟨"k", "United Kingdom", 10, 20⟩ "cats" 20 none
      (.ok (.obj [("error", JVal.str "Invalid API key.")]))).result =
      SearchResult.make none
        (some ("SerpAPI error: " ++ (JVal.str "Invalid API key.").pyStr)) :=
  ⟨⟨by decide, rfl⟩,
   (C7_provider_error_serpapi_only ⟨"k", "United Kingdom", 10, 20⟩ "cats"
     (by decide) 20 none [("error", JVal.str "Invalid API key.")]
     (JVal.str "Invalid API key.") rfl).1⟩

/-- C8 counterexample: with `numResults = 0` (not a positive integer) the
Serper adapter sends 1 — the lower clamp bound — rather than any default
result count (its parameter default is 8 and its config has no result-count
field); with `numResults = -5` the SerpAPI adapter sends -5 as-is rather
than its config default 20. -/
theorem C8_counterexample :
    ((SerperAPI.get_sources
      ⟨"k", "https://google.serper.dev/search", "us", 10⟩ "cats" 0 none
      (.reqError "boom")).request.map (fun r => r.num)) = some 1 ∧
    (1 : Int) ≠ 8 ∧
    ((SerpAPI.get_sources ⟨"k", "United Kingdom", 10, 20⟩ "cats" (-5) none
      (.reqError "boom")).request.map (fun r => r.num)) = some (-5) ∧
    (-5 : Int) ≠ 20 ∧ ¬ (0 : Int) < -5 := by
  refine ⟨rfl, by decide, rfl, by decide, by decide⟩

/-- C8 (amended): the Serper adapter always sends `min(max(1, numResults),
10)` — it clamps into [1, 10] and never substitutes a default, so a
non-positive `numResults` becomes 1; the SerpAPI adapter sends `numResults`
unchanged except that exactly the value 0 falls back to
`config.num_results`, with no clamp (negative and oversized values are sent
as-is). -/
theorem C8_result_count_policies (cfgA : SerperConfig) (cfgB : SerpAPIConfig)
    (q : String) (hq : stripIsEmpty q = false) (n1 n2 : Int)
    (loc1 loc2 : Option String) (t1 t2 : Transport) :
    ((SerperAPI.get_sources cfgA q n1 loc1 t1).request.map
      (fun r => r.num)) = some (min (max 1 n1) 10) ∧
    ((SerpAPI.get_sources cfgB q n2 loc2 t2).request.map
      (fun r => r.num)) = some (pyOrInt n2 cfgB.num_results) := by
  constructor
  · simp only [SerperAPI.get_sources, hq]
    rw [if_neg (by simp)]
    rfl
  · simp only [SerpAPI.get_sources, hq]
    rw [if_neg (by simp)]
    rfl

/-- Witness for C8 at `numResults = 15` / `numResults = 50`. -/
theorem C8_witness :
    stripIsEmpty "cats" = false ∧
    (((SerperAPI.get_sources
      ⟨"k", "https://google.serper.dev/search", "us", 10⟩ "cats" 15 none
      (.reqError "x")).request.map (fun r => r.num)) =
        some (min (max 1 15) 10) ∧
    ((SerpAPI.get_sources ⟨"k", "United Kingdom", 10, 20⟩ "cats" 50 none
      (.reqError "x")).request.map (fun r => r.num)) =
        some (pyOrInt 50 (⟨"k", "United Kingdom", 10, 20⟩ :
          SerpAPIConfig).num_results)) :=
  ⟨by decide,
   C8_result_count_policies ⟨"k", "https://google.serper.dev/search", "us", 10⟩
     ⟨"k", "United Kingdom", 10, 20⟩ "cats" (by decide) 15 50 none none
     (.reqError "x") (.reqError "x")⟩

/-- C9 counterexample: with no override, the SerpAPI adapter sends
"united kingdom", the LOWERCASED form of its default location
"United Kingdom", and a Serper adapter configured with default "GB" sends
"gb" — the default is not passed unmodified. -/
theorem C9_counterexample :
    ((SerpAPI.get_sources ⟨"k", "United Kingdom", 10, 20⟩ "cats" 8 none
      (.reqError "boom")).request.map (fun r => r.location)) =
      some "united kingdom" ∧
    "united kingdom" ≠ "United Kingdom" ∧
    ((SerperAPI.get_sources ⟨"k", "https://google.serper.dev/search", "GB", 10⟩
      "cats" 8 none (.reqError "boom")).request.map (fun r => r.gl)) =
      some "gb" ∧
    "gb" ≠ "GB" := by
  refine ⟨rfl, by decide, rfl, by decide⟩

/-- C9 (amended): the location sent is the LOWERCASED resolved value — the
override when provided and non-empty, else the default location, both
lowercased. (For the SerpAPI adapter this holds whenever the lowercased
resolved value is non-empty; when it is empty, both override and default
are empty and the empty default is sent anyway.) -/
theorem C9_location_lowercased (cfgA : SerperConfig) (cfgB : SerpAPIConfig)
    (q : String) (hq : stripIsEmpty q = false) (n1 n2 : Int)
    (loc1 loc2 : Option String) (t1 t2 : Transport) :
    ((SerperAPI.get_sources cfgA q n1 loc1 t1).request.map
      (fun r => r.gl)) = some (pyLower (pyOrStr loc1 cfgA.default_location)) ∧
    (pyLower (pyOrStr loc2 cfgB.default_location) ≠ "" →
      ((SerpAPI.get_sources cfgB q n2 loc2 t2).request.map
        (fun r => r.location)) =
        some (pyLower (pyOrStr loc2 cfgB.default_location))) := by
  constructor
  · simp only [SerperAPI.get_sources, hq]
    rw [if_neg (by simp)]
    rfl
  · intro hne
    have hie : (pyLower (pyOrStr loc2 cfgB.default_location)).isEmpty =
        false := by
      cases hb : (pyLower (pyOrStr loc2 cfgB.default_location)).isEmpty with
      | false => rfl
      | true => exact absurd ((String.isEmpty_iff _).mp hb) hne
    simp only [SerpAPI.get_sources, hq]
    rw [if_neg (by simp)]
    simp only [Option.map_some, pyOrStr2, hie]
    rfl

/-- Witness for C9 with no override over the default configurations. -/
theorem C9_witness :
    (stripIsEmpty "cats" = false ∧
      pyLower (pyOrStr none (("United Kingdom" : String))) ≠ "") ∧
    (((SerperAPI.get_sources
      ⟨"k", "https://google.serper.dev/search", "us", 10⟩ "cats" 8 none
      (.reqError "x")).request.map (fun r => r.gl)) =
        some (pyLower (pyOrStr none (("us" : String)))) ∧
    (pyLower (pyOrStr none (("United Kingdom" : String))) ≠ "" →
      ((SerpAPI.get_sources ⟨"k", "United Kingdom", 10, 20⟩ "cats" 8 none
        (.reqError "x")).request.map (fun r => r.location)) =
        some (pyLower (pyOrStr none (("United Kingdom" : String)))))) :=
  ⟨⟨by decide, by decide⟩,
   C9_location_lowercased ⟨"k", "https://google.serper.dev/search", "us", 10⟩
     ⟨"k", "United Kingdom", 10, 20⟩ "cats" (by decide) 8 8 none none
     (.reqError "x") (.reqError "x")⟩
